import Mathlib

/-!
A verification development for the Steem curation ingestion pipeline.

The definitions below are a shallow embedding of the Python sources:
`steemstream/account.py`, `steemstream/process/social.py`,
`steemstream/process/post.py`, `steemstream/process/reward.py`,
`steemstream/stream_blocks.py`, `steemstream/stream_prices.py` and
`main.py`.  Machine floats are modelled as exact rationals, Python's
timestamps as integers, the database / chain RPC clients as explicit
function parameters, and the three checkpoint files as fields of an
explicit record.  Fallible Python code (string-to-number conversion,
list indexing, attribute access) is modelled with `Option`/`Except`.
-/

/-! ## Python numeric primitives -/

/-- Python `int(q)` on a real number: truncation toward zero
(`Int.tdiv` is Lean's truncating division). -/
def pyTrunc (q : ℚ) : ℤ := q.num.tdiv (q.den : ℤ)

/-- Python `s.replace(pat, '')` on character lists: delete every
(left-to-right, non-overlapping) occurrence of `pat`. -/
def replaceList (cs pat : List Char) : List Char :=
  match cs with
  | [] => []
  | c :: rest =>
      if h : 0 < pat.length ∧ pat.isPrefixOf (c :: rest) then
        replaceList ((c :: rest).drop pat.length) pat
      else c :: replaceList rest pat
termination_by cs.length
decreasing_by
  · simp only [List.length_drop, List.length_cons]
    omega
  · simp

/-- Python `s.replace(pat, '')`. -/
def pyRemoveAll (s pat : String) : String := ⟨replaceList s.data pat.data⟩

/-- Parse a run of decimal digits (empty input is invalid). -/
def parseDigitsAux (cs : List Char) (acc : ℕ) : Option ℕ :=
  match cs with
  | [] => some acc
  | c :: rest =>
      if c.isDigit then parseDigitsAux rest (acc * 10 + (c.toNat - 48)) else none

/-- Parse a non-empty run of decimal digits. -/
def parseDigits (cs : List Char) : Option ℕ :=
  match cs with
  | [] => none
  | _ => parseDigitsAux cs 0

/-- Split a character list on `'.'`. -/
def splitDot (cs : List Char) : List (List Char) :=
  cs.foldr
    (fun c acc =>
      if c = '.' then [] :: acc
      else
        match acc with
        | [] => [[c]]
        | g :: gs => (c :: g) :: gs)
    [[]]

/-- Parse a decimal literal (optional sign, optional fractional part),
the fragment of Python `float(s)` exercised by the chain's amount
strings such as `"12.345"`. -/
def parseDecimal (s : String) : Option ℚ :=
  let signSplit : Bool × List Char :=
    match s.data with
    | '-' :: rest => (true, rest)
    | cs => (false, cs)
  let neg := signSplit.1
  match splitDot signSplit.2 with
  | [w] => (parseDigits w).map (fun n => if neg then -(n : ℚ) else (n : ℚ))
  | [w, f] =>
      match parseDigits w, parseDigits f with
      | some n, some m =>
          let q : ℚ := (n : ℚ) + (m : ℚ) / ((10 : ℚ) ^ f.length)
          some (if neg then -q else q)
      | _, _ => none
  | _ => none

/-- Round a rational to the nearest integer, ties to even — the rounding
used by Python's `round` (on the exact value; binary-float artefacts of
CPython are idealised away). -/
def roundHalfEven (q : ℚ) : ℤ :=
  if q - (⌊q⌋ : ℚ) < (1 : ℚ)/2 then ⌊q⌋
  else if (1 : ℚ)/2 < q - (⌊q⌋ : ℚ) then ⌊q⌋ + 1
  else if ⌊q⌋ % 2 = 0 then ⌊q⌋ else ⌊q⌋ + 1

/-- Python `round(q, n)`: round to `n` decimal places, ties to even. -/
def pyRoundN (n : ℕ) (q : ℚ) : ℚ :=
  (roundHalfEven (q * (10 : ℚ) ^ n) : ℚ) / (10 : ℚ) ^ n

/-- Python `round(q, 2)` as used on payout values. -/
def pyRound2 (q : ℚ) : ℚ := pyRoundN 2 q

/-- `int(float(s.replace(' VESTS', '')))` from `reward.py`. -/
def parseVests (s : String) : Option ℤ :=
  (parseDecimal (pyRemoveAll s " VESTS")).map pyTrunc

/-- `float(s.replace(' SBD', ''))` from `reward.py`
(`handle_curation_reward`). -/
def parsePayout (s : String) : Option ℚ :=
  parseDecimal (pyRemoveAll s " SBD")

/-! ## Account dedup cache (`steemstream/account.py`, `AccountChecker`) -/

/-- One entry of `acc_list`: an account pending insertion. -/
structure AccountData where
  username : String
  date_created : ℤ
deriving DecidableEq

/-- The state of `AccountChecker`: the in-flight batch `acc_list` and the
snapshot `acc_in_db` of usernames already persisted. -/
structure AccountChecker where
  acc_list : List AccountData
  acc_in_db : List String
deriving DecidableEq

/-- The dedup condition tested at the top of `AccountChecker.check`:
`username in self.acc_in_db.values or any(d['username'] == username for d
in self.acc_list) or username == 'null'`. -/
def AccountChecker.seen (c : AccountChecker) (u : String) : Bool :=
  c.acc_in_db.contains u || c.acc_list.any (fun d => d.username == u) || u == "null"

/-- `AccountChecker.check`: if the username is seen, do nothing;
otherwise perform one Chain Source `get_account` lookup (modelled by
`getAccount`, returning the creation time) and append an Account record
to `acc_list`.  In the source a lookup happens exactly when a record is
appended, so an unchanged state witnesses both "no lookup" and "no
record". -/
def AccountChecker.check (getAccount : String → ℤ) (c : AccountChecker) (u : String) :
    AccountChecker :=
  if c.seen u then c
  else { c with acc_list := c.acc_list ++ [⟨u, getAccount u⟩] }

/-- A sequence of `check` calls, in order. -/
def AccountChecker.checkMany (getAccount : String → ℤ) (c : AccountChecker)
    (us : List String) : AccountChecker :=
  us.foldl (AccountChecker.check getAccount) c

/-! ## Vote handling (`steemstream/process/social.py`, `handle_vote`) -/

/-- One element of a post's `active_votes` list. -/
structure ActiveVote where
  voter : String
  rshares : ℤ
deriving DecidableEq

/-- The fields of `s.get_content(author, permlink)` the embedded code
reads: the curator payout string and the active-votes list. -/
structure ContentData where
  curator_payout_value : String
  active_votes : List ActiveVote
deriving DecidableEq

/-- A `vote` operation's fields. -/
structure VoteBlock where
  author : String
  permlink : String
  voter : String
  weight : ℤ
deriving DecidableEq

/-- The vote record appended by `handle_vote`. -/
structure VoteData where
  author : String
  permlink : String
  voter : String
  time : ℤ
  weight : ℤ
  rshares : ℤ
deriving DecidableEq

/-- `handle_vote`: track the voter, compute `weight = block['weight'] //
100` (Python floor division, `Int.fdiv`), resolve rshares by scanning
the post's current active-votes list for the voter (default 0), and
append the record. -/
def handle_vote (getContent : String → String → ContentData) (getAccount : String → ℤ)
    (block : VoteBlock) (date : ℤ) (checker : AccountChecker) (votes : List VoteData) :
    AccountChecker × List VoteData :=
  let checker := checker.check getAccount block.voter
  let weight := Int.fdiv block.weight 100
  let rshares :=
    ((((getContent block.author block.permlink).active_votes.find?
        (fun v => v.voter == block.voter)).map ActiveVote.rshares).getD 0)
  (checker, votes ++ [⟨block.author, block.permlink, block.voter, date, weight, rshares⟩])

/-! ## Beneficiary declarations (`steemstream/process/post.py`,
`handle_beneficiary`) -/

/-- One entry of the `beneficiaries` list inside a `comment_options`
extension. -/
structure BenEntry where
  account : String
  weight : ℤ
deriving DecidableEq

/-- A `comment_options` operation: `extensions` is a list whose elements
are pairs `[code, {'beneficiaries': [...]}]`. -/
structure CommentOptionsBlock where
  author : String
  permlink : String
  extensions : List (ℤ × List BenEntry)
deriving DecidableEq

/-- The beneficiary record appended by `handle_beneficiary`. -/
structure BeneficiaryData where
  author : String
  permlink : String
  beneficiary : String
  pct : ℤ
deriving DecidableEq

/-- `handle_beneficiary`: if `extensions` is non-empty, iterate
`ext[0][1]['beneficiaries']`, tracking each account and appending a
record with `pct = ben['weight'] // 100` (Python floor division). -/
def handle_beneficiary (getAccount : String → ℤ) (block : CommentOptionsBlock)
    (checker : AccountChecker) (beneficiaries : List BeneficiaryData) :
    AccountChecker × List BeneficiaryData :=
  match block.extensions with
  | [] => (checker, beneficiaries)
  | e :: _ =>
      e.2.foldl
        (fun (st : AccountChecker × List BeneficiaryData) ben =>
          (st.1.check getAccount ben.account,
           st.2 ++ [⟨block.author, block.permlink, ben.account, Int.fdiv ben.weight 100⟩]))
        (checker, beneficiaries)

/-! ## Curation reward aggregation (`steemstream/process/reward.py`) -/

/-- One entry of a curation group's reward list. -/
structure CurationRewardEntry where
  curator : String
  vests : ℤ
deriving DecidableEq

/-- The closed-group record returned by `CurationRewards.get_data`.
`author`/`permlink`/`reward_time` are `Option`s because the initial
aggregator is constructed as `CurationRewards(None, None, None)`. -/
structure CurationRewardsData where
  author : Option String
  permlink : Option String
  reward_time : Option ℤ
  rewards : List CurationRewardEntry
deriving DecidableEq

/-- The mutable state of the `CurationRewards` aggregator. -/
structure CurationRewards where
  author : Option String
  permlink : Option String
  reward_time : Option ℤ
  rewards : List CurationRewardEntry
deriving DecidableEq

/-- `CurationRewards.check_new_post`: `False` iff both the author and
the permlink match the tracked post (Python `==` against a `None`
field is false). -/
def CurationRewards.check_new_post (crs : CurationRewards)
    (n_author n_permlink : String) : Bool :=
  if crs.author = some n_author ∧ crs.permlink = some n_permlink then false else true

/-- A `curation_reward` operation's fields. -/
structure CurationBlock where
  comment_author : String
  comment_permlink : String
  curator : String
  reward : String
deriving DecidableEq

/-- `CurationRewards.add_reward`: track the curator and append
`{'curator': ..., 'vests': int(float(reward.replace(' VESTS', '')))}`;
an unparsable amount raises (`ValueError`). -/
def CurationRewards.add_reward (getAccount : String → ℤ) (crs : CurationRewards)
    (checker : AccountChecker) (block : CurationBlock) :
    Except String (CurationRewards × AccountChecker) :=
  let checker := checker.check getAccount block.curator
  match parseVests block.reward with
  | none => Except.error "ValueError"
  | some vests =>
      Except.ok ({ crs with rewards := crs.rewards ++ [⟨block.curator, vests⟩] }, checker)

/-- `CurationRewards.get_data`. -/
def CurationRewards.get_data (crs : CurationRewards) : CurationRewardsData :=
  ⟨crs.author, crs.permlink, crs.reward_time, crs.rewards⟩

/-- The post-value record appended by `handle_curation_reward`. -/
structure PostValueData where
  author : String
  permlink : String
  total_value : ℚ
deriving DecidableEq

/-- `handle_curation_reward`: track the author; if the incoming event's
(author, permlink) differs from the tracked post, close the current
group — when its author is not `None`, append it to `curation_rewards`,
fetch `get_content(author, permlink)` for the *incoming* key, and append
a PostValue record `{author, permlink,
round(float(curator_payout_value.replace(' SBD','')), 2) * 2}` — then
open a fresh group keyed by the incoming event; finally add the incoming
reward to the (possibly new) group. -/
def handle_curation_reward (getContent : String → String → ContentData)
    (getAccount : String → ℤ) (block : CurationBlock) (date : ℤ)
    (checker : AccountChecker) (crs : CurationRewards)
    (post_values : List PostValueData) (curation_rewards : List CurationRewardsData) :
    Except String (AccountChecker × CurationRewards × List PostValueData ×
      List CurationRewardsData) :=
  let checker := checker.check getAccount block.comment_author
  let author := block.comment_author
  let permlink := block.comment_permlink
  if crs.check_new_post author permlink then
    let crs_data := crs.get_data
    let closed : Except String (List PostValueData × List CurationRewardsData) :=
      match crs_data.author with
      | none => Except.ok (post_values, curation_rewards)
      | some _ =>
          let curation_rewards := curation_rewards ++ [crs_data]
          let content := getContent author permlink
          match parsePayout content.curator_payout_value with
          | none => Except.error "ValueError"
          | some v =>
              Except.ok (post_values ++ [⟨author, permlink, pyRound2 v * 2⟩],
                curation_rewards)
    match closed with
    | Except.error e => Except.error e
    | Except.ok (pv, cr) =>
        let fresh : CurationRewards := ⟨some author, some permlink, some date, []⟩
        match fresh.add_reward getAccount checker block with
        | Except.error e => Except.error e
        | Except.ok (crs2, checker2) => Except.ok (checker2, crs2, pv, cr)
  else
    match crs.add_reward getAccount checker block with
    | Except.error e => Except.error e
    | Except.ok (crs2, checker2) => Except.ok (checker2, crs2, post_values, curation_rewards)

/-- The accumulated state threaded by the curation part of the stream
loop: dedup cache, open aggregator, and the two output batches. -/
structure CurationState where
  checker : AccountChecker
  crs : CurationRewards
  post_values : List PostValueData
  curation_rewards : List CurationRewardsData
deriving DecidableEq

/-- One stream iteration restricted to a `curation_reward` operation. -/
def curationStep (getContent : String → String → ContentData) (getAccount : String → ℤ)
    (st : CurationState) (ev : CurationBlock × ℤ) : Except String CurationState :=
  match handle_curation_reward getContent getAccount ev.1 ev.2 st.checker st.crs
      st.post_values st.curation_rewards with
  | Except.error e => Except.error e
  | Except.ok (checker, crs, pv, cr) => Except.ok ⟨checker, crs, pv, cr⟩

/-- Feed a sequence of `curation_reward` events (with their block
timestamps) through the aggregator, in stream order. -/
def runCuration (getContent : String → String → ContentData) (getAccount : String → ℤ)
    (events : List (CurationBlock × ℤ)) (st : CurationState) :
    Except String CurationState :=
  events.foldlM (curationStep getContent getAccount) st

/-- The initial curation state of `stream_data`:
`crs = CurationRewards(None, None, None)` and empty batches. -/
def initCurationState (checker : AccountChecker) : CurationState :=
  ⟨checker, ⟨none, none, none, []⟩, [], []⟩

/-! ## Resteem parsing (`steemstream/process/social.py`,
`parse_resteem` / `handle_resteem`) -/

/-- A parsed JSON value, the result of `json.loads` on the operation's
`json` field. -/
inductive PyJson where
  | null : PyJson
  | bool : Bool → PyJson
  | num : ℚ → PyJson
  | str : String → PyJson
  | arr : List PyJson → PyJson
  | obj : List (String × PyJson) → PyJson

/-- Python `==` between a JSON value and a string literal: true only for
an equal string. -/
def PyJson.eqStr (j : PyJson) (s : String) : Bool :=
  match j with
  | PyJson.str t => t == s
  | _ => false

/-- Python `k in d.keys()` for a JSON object's field list. -/
def pyObjHasKey (fields : List (String × PyJson)) (k : String) : Bool :=
  fields.any (fun f => f.1 == k)

/-- Python `d[k]` on a JSON object (first matching key). -/
def pyObjGet (fields : List (String × PyJson)) (k : String) : Option PyJson :=
  (fields.find? (fun f => f.1 == k)).map Prod.snd

/-- Extract a JSON string value; non-string field values fall outside
the modelled fragment of the dynamic code and are reported as an
error. -/
def pyAsStr (j : PyJson) : Except String String :=
  match j with
  | PyJson.str s => Except.ok s
  | _ => Except.error "TypeError"

/-- A `custom_json` operation's fields; `json` holds the payload already
parsed by the external `json` module. -/
structure CustomJsonBlock where
  type : String
  id : String
  json : PyJson
  timestamp : ℤ

/-- The resteem record built by `parse_resteem` (the `time` field is
attached later by `handle_resteem`). -/
structure ResteemData where
  author : String
  permlink : String
  resteemed_by : String
  followers : ℤ
deriving DecidableEq

/-- `parse_resteem`: fires only for `type == 'custom_json'` and
`id == 'follow'`; requires the payload to be a list whose element 0
equals `'reblog'` and whose element 1 is an object with the keys
`account`, `author`, `permlink`.  Faithful to the source, `json_data[0]`
on an empty list and `json_data[1]` on a one-element list raise
(`IndexError`), and `.keys()` on a non-object raises
(`AttributeError`); those raises surface as `Except.error`.
`followers` models the external `get_account_followers(account,
timestamp)` HTTP estimate. -/
def parse_resteem (followers : String → ℤ → ℤ) (block : CustomJsonBlock) :
    Except String (Option ResteemData) :=
  if block.type == "custom_json" && block.id == "follow" then
    match block.json with
    | PyJson.arr xs =>
        match xs.head? with
        | none => Except.error "IndexError"
        | some j0 =>
            if j0.eqStr "reblog" then
              match xs.get? 1 with
              | none => Except.error "IndexError"
              | some j1 =>
                  match j1 with
                  | PyJson.obj fields =>
                      if pyObjHasKey fields "account" && pyObjHasKey fields "author" &&
                          pyObjHasKey fields "permlink" then
                        match pyObjGet fields "account", pyObjGet fields "author",
                            pyObjGet fields "permlink" with
                        | some va, some vau, some vp =>
                            match pyAsStr va, pyAsStr vau, pyAsStr vp with
                            | Except.ok acc, Except.ok au, Except.ok pl =>
                                Except.ok (some ⟨au, pl, acc, followers acc block.timestamp⟩)
                            | _, _, _ => Except.error "TypeError"
                        | _, _, _ => Except.error "KeyError"
                      else Except.ok none
                  | _ => Except.error "AttributeError"
            else Except.ok none
    | _ => Except.ok none
  else Except.ok none

/-- The resteem record appended by `handle_resteem`, with the attached
`time`. -/
structure ResteemRecord where
  author : String
  permlink : String
  resteemed_by : String
  followers : ℤ
  time : ℤ
deriving DecidableEq

/-- `handle_resteem`: if `parse_resteem` yields data, track the
resteemer, attach the timestamp and append the record; otherwise append
nothing. -/
def handle_resteem (followers : String → ℤ → ℤ) (getAccount : String → ℤ)
    (block : CustomJsonBlock) (date : ℤ) (checker : AccountChecker)
    (resteems : List ResteemRecord) :
    Except String (AccountChecker × List ResteemRecord) :=
  match parse_resteem followers block with
  | Except.error e => Except.error e
  | Except.ok none => Except.ok (checker, resteems)
  | Except.ok (some d) =>
      let checker := checker.check getAccount d.resteemed_by
      Except.ok (checker,
        resteems ++ [⟨d.author, d.permlink, d.resteemed_by, d.followers, date⟩])

/-! ## Batch flush and checkpoint files (`steemstream/stream_blocks.py`,
`insert_data`) -/

/-- The three plain-text checkpoint files, each holding one integer:
`data\most_recent_block` (written before every operation is handled),
`data\most_recent_block_inserted` (written after a successful flush) and
`data\highest_block_inserted` (the high-water mark). -/
structure CheckpointFiles where
  most_recent_block : ℤ
  most_recent_block_inserted : ℤ
  highest_block_inserted : ℤ
deriving DecidableEq

/-- One `db.insert_multiple(procedure, to_insert)` call made during a
flush.  Records are carried opaquely (`insert_data` never inspects them,
only their count). -/
structure SinkCall where
  procedure : String
  payload : List String
deriving DecidableEq

/-- The stored-procedure name chosen for a category key:
`update_pending_post_percentiles_values` for `post_values`, else
`insert_<key>`. -/
def procedureFor (key : String) : String :=
  if key == "post_values" then "update_pending_post_percentiles_values"
  else "insert_" ++ key

/-- `insert_data`: if the total record count across all categories
reaches `length_to_insert`, issue one Sink call per category (in dict
order, empty or not), overwrite `most_recent_block_inserted` with the
supplied block number, raise `highest_block_inserted` to it when it is
strictly greater, and return `True`; otherwise do nothing and return
`False`. -/
def insert_data (data_to_insert : List (String × List String)) (most_recent_block : ℤ)
    (files : CheckpointFiles) (length_to_insert : ℕ) :
    Bool × List SinkCall × CheckpointFiles :=
  let total_length := (data_to_insert.map (fun kv => kv.2.length)).sum
  if total_length ≥ length_to_insert then
    let calls := data_to_insert.map (fun kv => SinkCall.mk (procedureFor kv.1) kv.2)
    let highest := files.highest_block_inserted
    let files' : CheckpointFiles :=
      { most_recent_block := files.most_recent_block
        most_recent_block_inserted := most_recent_block
        highest_block_inserted :=
          if most_recent_block > highest then most_recent_block else highest }
    (true, calls, files')
  else (false, [], files)

/-- The category keys of `data_to_insert`, in the dict-literal order of
`stream_data`. -/
def streamCategories : List String :=
  ["accounts", "posts", "beneficiaries", "bodies", "languages", "tags", "comments",
   "resteems", "post_values", "votes", "author_rewards", "curation_rewards",
   "beneficiary_rewards"]

/-- Lines 120–121 of `stream_data`: before each operation is handled,
overwrite `data\most_recent_block` with the current block number. -/
def stream_seen_write (files : CheckpointFiles) (block_num : ℤ) : CheckpointFiles :=
  { files with most_recent_block := block_num }

/-- The checkpoint effect of one head-of-loop stream iteration: record
the block as seen, then attempt a flush of the current batches. -/
def stream_iteration (data_to_insert : List (String × List String))
    (length_to_insert : ℕ) (files : CheckpointFiles) (block_num : ℤ) : CheckpointFiles :=
  (insert_data data_to_insert block_num (stream_seen_write files block_num)
    length_to_insert).2.2

/-- The checkpoint effect of a sequence of flush attempts
(`insert_data` calls with their flush-time block numbers). -/
def flushRun (flushes : List (List (String × List String) × ℤ)) (length_to_insert : ℕ)
    (files : CheckpointFiles) : CheckpointFiles :=
  flushes.foldl (fun fs db => (insert_data db.1 db.2 fs length_to_insert).2.2) files

/-! ## Stream recovery (`main.py`, `start_block_stream`) -/

/-- The `most_recent=True` startup path of `start_block_stream`: read
the restart block from `data\most_recent_block_inserted`. -/
def startup_block (files : CheckpointFiles) : ℤ := files.most_recent_block_inserted

/-- The `except RPCError` recovery path of `start_block_stream` (lines
37–39): re-read the restart block from `data\most_recent_block` — the
continuously written last-seen pointer. -/
def recovery_restart_block (files : CheckpointFiles) : ℤ := files.most_recent_block

/-! ## Operation dispatch and the block-number cutoff
(`steemstream/stream_blocks.py`, `stream_data` lines 153–183) -/

/-- The handlers a stream iteration can invoke. -/
inductive Handler where
  | hPost
  | hComment
  | hBeneficiary
  | hResteem
  | hVote
  | hAuthorReward
  | hCurationReward
  | hBeneficiaryReward
deriving DecidableEq

/-- The dispatch of `stream_data`: `block_check = block_num < 84763551`;
below the cutoff only `vote`, `curation_reward` and
`comment_benefactor_reward` are handled, otherwise the full dispatch
runs (a `comment` splits on empty `parent_author`).  `none` means the
operation falls through every branch and no handler — hence no record —
is produced. -/
def dispatch (b_type : String) (parent_author : String) (block_num : ℤ) :
    Option Handler :=
  if block_num < 84763551 then
    if b_type == "vote" then some Handler.hVote
    else if b_type == "curation_reward" then some Handler.hCurationReward
    else if b_type == "comment_benefactor_reward" then some Handler.hBeneficiaryReward
    else none
  else
    if b_type == "comment" then
      if parent_author == "" then some Handler.hPost else some Handler.hComment
    else if b_type == "comment_options" then some Handler.hBeneficiary
    else if b_type == "custom_json" then some Handler.hResteem
    else if b_type == "vote" then some Handler.hVote
    else if b_type == "author_reward" then some Handler.hAuthorReward
    else if b_type == "curation_reward" then some Handler.hCurationReward
    else if b_type == "comment_benefactor_reward" then some Handler.hBeneficiaryReward
    else none

/-! ## Price backfill (`steemstream/stream_prices.py`,
`get_missing_prices`) -/

/-- One OHLCV row as returned by the external price source. -/
structure PriceRow where
  openv : ℚ
  high : ℚ
  low : ℚ
  close : ℚ
  volume : ℚ
deriving DecidableEq

/-- The JSON payload built for `insert_steem_price_history`. -/
structure PricePayload where
  date : ℤ
  openv : ℚ
  high : ℚ
  low : ℚ
  close : ℚ
  volume : ℤ
deriving DecidableEq

/-- Observable actions of one backfill cycle, in order. -/
inductive PriceEvent where
  | sleepUntil : ℤ → PriceEvent
  | fetch : ℤ → ℤ → PriceEvent
  | insert : ℤ → PricePayload → PriceEvent
deriving DecidableEq

/-- The availability instant for a date (a day index): 00:30 UTC on the
following day, in minutes. -/
def priceDeadline (d : ℤ) : ℤ := (d + 1) * 1440 + 30

/-- Processing of one missing date inside `get_missing_prices`: if the
deadline is in the future, sleep until it; download the date's row (a
`fetch` event stamped with the clock at the moment of the call); if a
row is present, round it and insert it, else log and move on. -/
def priceStep (source : ℤ → Option PriceRow) (st : ℤ × List PriceEvent) (d : ℤ) :
    ℤ × List PriceEvent :=
  let now := st.1
  let dl := priceDeadline d
  let now2 := if now < dl then dl else now
  let evs2 := if now < dl then st.2 ++ [PriceEvent.sleepUntil dl] else st.2
  match source d with
  | some row =>
      (now2,
       evs2 ++ [PriceEvent.fetch d now2] ++
         [PriceEvent.insert d
           ⟨d, pyRoundN 4 row.openv, pyRoundN 4 row.high, pyRoundN 4 row.low,
             pyRoundN 4 row.close, pyTrunc row.volume⟩])
  | none => (now2, evs2 ++ [PriceEvent.fetch d now2])

/-- `get_missing_prices`: process every missing date in order, threading
the clock.  The function is total: no exception escapes a cycle on a
date with no returned row. -/
def get_missing_prices (source : ℤ → Option PriceRow) (missing : List ℤ) (now0 : ℤ) :
    ℤ × List PriceEvent :=
  missing.foldl (priceStep source) (now0, [])

/-! ## Helper lemmas -/

/-- Python `//` (floor division) by 100 is the floor of the exact
quotient. -/
lemma fdiv_hundred_eq_floor (a : ℤ) : Int.fdiv a 100 = ⌊(a : ℚ) / 100⌋ := by
  rw [show ((100 : ℚ)) = ((100 : ℕ) : ℚ) by norm_num, Rat.floor_intCast_div_natCast]
  rw [Int.fdiv_eq_ediv _ (by norm_num)]
  rfl

lemma benFold_pcts (ga : String → ℤ) (a p : String) (l : List BenEntry)
    (st : AccountChecker × List BeneficiaryData) :
    (l.foldl
      (fun (st : AccountChecker × List BeneficiaryData) ben =>
        (st.1.check ga ben.account,
         st.2 ++ [⟨a, p, ben.account, Int.fdiv ben.weight 100⟩])) st).2 =
      st.2 ++ l.map (fun ben => ⟨a, p, ben.account, Int.fdiv ben.weight 100⟩) := by
  induction l generalizing st with
  | nil => simp
  | cons x xs ih => simp [List.foldl_cons, ih]

/-- C3 (amended): the recorded vote weight and beneficiary percentage
are the raw weight floor-divided by 100 (Python `//`, rounding toward
negative infinity — not truncation toward zero): the appended weight is
`⌊weight / 100⌋` exactly. -/
theorem c3_weight_floor_division :
    (∀ (gc : String → String → ContentData) (ga : String → ℤ) (b : VoteBlock) (d : ℤ)
        (c : AccountChecker) (vs : List VoteData),
      ((handle_vote gc ga b d c vs).2.map VoteData.weight) =
        vs.map VoteData.weight ++ [⌊(b.weight : ℚ) / 100⌋]) ∧
    (∀ (ga : String → ℤ) (b : CommentOptionsBlock) (c : AccountChecker)
        (bs : List BeneficiaryData),
      ((handle_beneficiary ga b c bs).2.map BeneficiaryData.pct) =
        bs.map BeneficiaryData.pct ++
          (b.extensions.head?.elim []
            (fun e => e.2.map (fun ben => ⌊(ben.weight : ℚ) / 100⌋)))) := by
  constructor
  · intro gc ga b d c vs
    simp [handle_vote, fdiv_hundred_eq_floor]
  · intro ga b c bs
    cases hext : b.extensions with
    | nil => simp [handle_beneficiary, hext]
    | cons e es =>
        simp [handle_beneficiary, hext, benFold_pcts]
        simp [fdiv_hundred_eq_floor]

/-- Counterexample for C3 as stated: a raw vote weight of -4999 yields
recorded weight -50 (floor division), not -49 (truncation). -/
theorem c3_counterexample :
    (handle_vote (fun _ _ => ⟨"0.00 SBD", []⟩) (fun _ => 0)
        ⟨"bob", "p1", "alice", -4999⟩ 0 ⟨[], []⟩ []).2 =
      [⟨"bob", "p1", "alice", 0, -50, 0⟩] ∧ ((-50 : ℤ) = -49 → False) := by
  constructor
  · simp [handle_vote]
  · decide

/-- C10: for every streamed operation in a block numbered strictly below
84763551, only `vote`, `curation_reward` and `comment_benefactor_reward`
are dispatched to a handler; `comment`, `comment_options`, `custom_json`
and `author_reward` operations fall through every branch and produce no
records at all — the undocumented hard-coded cutoff in `stream_data`. -/
theorem c10_block_cutoff (b_type parent_author : String) (block_num : ℤ)
    (h : block_num < 84763551) :
    (dispatch b_type parent_author block_num = none ∨
      dispatch b_type parent_author block_num = some Handler.hVote ∨
      dispatch b_type parent_author block_num = some Handler.hCurationReward ∨
      dispatch b_type parent_author block_num = some Handler.hBeneficiaryReward) ∧
    ((b_type = "comment" ∨ b_type = "comment_options" ∨ b_type = "custom_json" ∨
      b_type = "author_reward") → dispatch b_type parent_author block_num = none) := by
  unfold dispatch
  rw [if_pos h]
  constructor
  · split_ifs <;> simp
  · rintro (rfl | rfl | rfl | rfl) <;> simp

/-- Witness for C10 at block 84763550. -/
theorem c10_witness :
    (84763550 : ℤ) < 84763551 ∧
    dispatch "comment" "" 84763550 = none ∧
    dispatch "author_reward" "" 84763550 = none := by
  refine ⟨by norm_num, ?_, ?_⟩
  · exact (c10_block_cutoff "comment" "" 84763550 (by norm_num)).2 (Or.inl rfl)
  · exact (c10_block_cutoff "author_reward" "" 84763550 (by norm_num)).2 (by tauto)

lemma seen_mono_check (ga : String → ℤ) (c : AccountChecker) (u v : String)
    (h : c.seen u = true) : (c.check ga v).seen u = true := by
  unfold AccountChecker.check
  split_ifs with hv
  · exact h
  · simp only [AccountChecker.seen, Bool.or_eq_true, List.any_append] at h ⊢
    tauto

lemma seen_mono_checkMany (ga : String → ℤ) (us : List String) (u : String) :
    ∀ c : AccountChecker, c.seen u = true → (c.checkMany ga us).seen u = true := by
  induction us with
  | nil => intro c h; exact h
  | cons v vs ih =>
      intro c h
      have : c.checkMany ga (v :: vs) = (c.check ga v).checkMany ga vs := by
        simp [AccountChecker.checkMany]
      rw [this]
      exact ih _ (seen_mono_check ga c u v h)

/-- C6 (amended): once the dedup check `seen(u)` is true it stays true
for every subsequent `check` call in the run for the exact same string
(comparison is case-sensitive `==`, not case-insensitive), and the
sentinel `"null"` is always seen, never triggers a Chain Source lookup
and never produces an Account record (`check` leaves the state
unchanged). -/
theorem c6_seen_monotone_null (ga : String → ℤ) (c : AccountChecker) (u : String)
    (h : c.seen u = true) :
    (∀ us, (c.checkMany ga us).seen u = true) ∧
    (∀ c' : AccountChecker, c'.seen "null" = true ∧ c'.check ga "null" = c') := by
  constructor
  · intro us
    exact seen_mono_checkMany ga us u c h
  · intro c'
    have hnull : c'.seen "null" = true := by
      simp [AccountChecker.seen]
    exact ⟨hnull, by unfold AccountChecker.check; rw [if_pos hnull]⟩

/-- Witness for C6 on a concrete state and check sequence. -/
theorem c6_witness :
    AccountChecker.seen ⟨[], ["alice"]⟩ "alice" = true ∧
    (AccountChecker.checkMany (fun _ => 0) ⟨[], ["alice"]⟩
      ["bob", "carol", "alice", "null"]).seen "alice" = true ∧
    AccountChecker.check (fun _ => 0) ⟨[], ["alice"]⟩ "null" = ⟨[], ["alice"]⟩ := by
  refine ⟨by decide, ?_, ?_⟩
  · exact (c6_seen_monotone_null (fun _ => 0) ⟨[], ["alice"]⟩ "alice" (by decide)).1 _
  · exact ((c6_seen_monotone_null (fun _ => 0) ⟨[], ["alice"]⟩ "alice" (by decide)).2 _).2

/-- Counterexample for C6 as stated: `"alice"` is seen but `"Alice"`
(differing only in letter case) is not, and checking it performs a
lookup and appends an Account record — the dedup check is
case-sensitive. -/
theorem c6_counterexample :
    (AccountChecker.seen ⟨[], ["alice"]⟩ "alice" = true) ∧
    (AccountChecker.seen ⟨[], ["alice"]⟩ "Alice" = false) ∧
    (AccountChecker.check (fun _ => 7) ⟨[], ["alice"]⟩ "Alice" =
      ⟨[⟨"Alice", 7⟩], ["alice"]⟩) := by
  refine ⟨by decide, by decide, ?_⟩
  unfold AccountChecker.check
  rw [if_neg (by decide)]
  rfl

lemma stream_iteration_no_flush (data : List (String × List String)) (t : ℕ)
    (hlt : (data.map (fun kv => kv.2.length)).sum < t) (files : CheckpointFiles) (b : ℤ) :
    stream_iteration data t files b = { files with most_recent_block := b } := by
  unfold stream_iteration insert_data stream_seen_write
  rw [if_neg (by omega)]

/-- C2 (amended): after a run of stream iterations that never reaches
the flush threshold, the outer recovery loop restarts from the
continuously written last-seen block pointer (`data\most_recent_block`,
the last streamed block number), while the flushed checkpoint
`data\most_recent_block_inserted` is unchanged — restart does NOT use
the most-recently-processed checkpoint, so unflushed records are
skipped. -/
theorem c2_recovery_uses_last_seen (data : List (String × List String)) (t : ℕ)
    (hlt : (data.map (fun kv => kv.2.length)).sum < t) (files : CheckpointFiles)
    (bs : List ℤ) (b : ℤ) :
    recovery_restart_block (List.foldl (stream_iteration data t) files (bs ++ [b])) = b ∧
    (List.foldl (stream_iteration data t) files (bs ++ [b])).most_recent_block_inserted =
      files.most_recent_block_inserted := by
  have hiter : ∀ (fs : CheckpointFiles) (k : ℤ),
      stream_iteration data t fs k = { fs with most_recent_block := k } :=
    fun fs k => stream_iteration_no_flush data t hlt fs k
  have key : ∀ (l : List ℤ) (fs : CheckpointFiles),
      (List.foldl (stream_iteration data t) fs l).most_recent_block_inserted =
        fs.most_recent_block_inserted := by
    intro l
    induction l with
    | nil => intro fs; rfl
    | cons x xs ih =>
        intro fs
        rw [List.foldl_cons, hiter fs x]
        exact ih _
  constructor
  · rw [List.foldl_append]
    simp [hiter, recovery_restart_block]
  · rw [List.foldl_append]
    simp only [List.foldl_cons, List.foldl_nil, hiter]
    exact key bs files

/-- Witness for C2 on a concrete unflushed run 101–105. -/
theorem c2_witness :
    ((streamCategories.map (fun k => (k, ([] : List String)))).map
        (fun kv => kv.2.length)).sum < 1000 ∧
    recovery_restart_block
      (List.foldl
        (stream_iteration (streamCategories.map (fun k => (k, ([] : List String)))) 1000)
        ⟨100, 100, 100⟩ ([101, 102, 103, 104] ++ [105])) = 105 := by
  refine ⟨by decide, ?_⟩
  exact (c2_recovery_uses_last_seen _ 1000 (by decide) ⟨100, 100, 100⟩
    [101, 102, 103, 104] 105).1

/-- Counterexample for C2 as stated: after streaming blocks 101–105
with no flush, the recovery path restarts at 105 (last seen) although
the last flushed checkpoint is 100. -/
theorem c2_counterexample :
    recovery_restart_block
        (List.foldl
          (stream_iteration (streamCategories.map (fun k => (k, ([] : List String)))) 1000)
          ⟨100, 100, 100⟩ [101, 102, 103, 104, 105]) = 105 ∧
    (List.foldl
        (stream_iteration (streamCategories.map (fun k => (k, ([] : List String)))) 1000)
        ⟨100, 100, 100⟩ [101, 102, 103, 104, 105]).most_recent_block_inserted = 100 ∧
    ((105 : ℤ) = 100 → False) := by decide

/-- C5 (amended): when the total record count reaches the threshold,
`insert_data` makes exactly one Sink call per category — including empty
categories — with `update_pending_post_percentiles_values` for
`post_values` and `insert_<category>` otherwise, and overwrites the
resumable checkpoint with the supplied block number; below the
threshold it returns `False`, makes no Sink call and writes no
checkpoint. -/
theorem c5_flush_behavior :
    (∀ (data : List (String × List String)) (b : ℤ) (files : CheckpointFiles) (t : ℕ),
      (data.map (fun kv => kv.2.length)).sum ≥ t →
        insert_data data b files t =
          (true,
           data.map (fun kv =>
             SinkCall.mk
               (if kv.1 == "post_values" then "update_pending_post_percentiles_values"
                else "insert_" ++ kv.1) kv.2),
           { most_recent_block := files.most_recent_block
             most_recent_block_inserted := b
             highest_block_inserted :=
               if b > files.highest_block_inserted then b
               else files.highest_block_inserted })) ∧
    (∀ (data : List (String × List String)) (b : ℤ) (files : CheckpointFiles) (t : ℕ),
      (data.map (fun kv => kv.2.length)).sum < t →
        insert_data data b files t = (false, [], files)) := by
  constructor
  · intro data b files t h
    unfold insert_data
    rw [if_pos h]
    simp [procedureFor]
  · intro data b files t h
    unfold insert_data
    rw [if_neg (by omega)]

/-- Witness for C5 at a concrete two-category batch. -/
theorem c5_witness :
    ([("accounts", ["a1"]), ("post_values", ["v1"])].map
        (fun kv : String × List String => kv.2.length)).sum ≥ 2 ∧
    insert_data [("accounts", ["a1"]), ("post_values", ["v1"])] 7 ⟨0, 0, 0⟩ 2 =
      (true,
       [⟨"insert_accounts", ["a1"]⟩, ⟨"update_pending_post_percentiles_values", ["v1"]⟩],
       ⟨0, 7, 7⟩) ∧
    insert_data [("accounts", ["a1"]), ("post_values", ["v1"])] 7 ⟨0, 0, 0⟩ 3 =
      (false, [], ⟨0, 0, 0⟩) := by
  refine ⟨by decide, ?_, ?_⟩
  · rw [(c5_flush_behavior).1 [("accounts", ["a1"]), ("post_values", ["v1"])] 7 ⟨0, 0, 0⟩ 2
      (by decide)]
    decide
  · exact (c5_flush_behavior).2 [("accounts", ["a1"]), ("post_values", ["v1"])] 7 ⟨0, 0, 0⟩ 3
      (by decide)

/-- Counterexample for C5 as stated: with only `accounts` non-empty,
the flush still makes a Sink call for every one of the 13 categories,
e.g. `insert_posts` with an empty payload — empty categories ARE
flushed. -/
theorem c5_counterexample :
    (insert_data
        (streamCategories.map (fun k => (k, if k == "accounts" then ["row"] else [])))
        7 ⟨0, 0, 0⟩ 1).2.1 =
      [⟨"insert_accounts", ["row"]⟩, ⟨"insert_posts", []⟩, ⟨"insert_beneficiaries", []⟩,
       ⟨"insert_bodies", []⟩, ⟨"insert_languages", []⟩, ⟨"insert_tags", []⟩,
       ⟨"insert_comments", []⟩, ⟨"insert_resteems", []⟩,
       ⟨"update_pending_post_percentiles_values", []⟩, ⟨"insert_votes", []⟩,
       ⟨"insert_author_rewards", []⟩, ⟨"insert_curation_rewards", []⟩,
       ⟨"insert_beneficiary_rewards", []⟩] ∧
    SinkCall.mk "insert_posts" [] ∈
      (insert_data
        (streamCategories.map (fun k => (k, if k == "accounts" then ["row"] else [])))
        7 ⟨0, 0, 0⟩ 1).2.1 := by decide

lemma insert_data_highest (data : List (String × List String)) (b : ℤ)
    (files : CheckpointFiles) (t : ℕ) :
    files.highest_block_inserted ≤
        (insert_data data b files t).2.2.highest_block_inserted ∧
      ((insert_data data b files t).2.2.highest_block_inserted =
          files.highest_block_inserted ∨
        ((insert_data data b files t).2.2.highest_block_inserted = b ∧
          files.highest_block_inserted < b)) := by
  by_cases h1 : (data.map (fun kv => kv.2.length)).sum ≥ t
  · simp only [insert_data, if_pos h1]
    by_cases h2 : b > files.highest_block_inserted
    · simp only [if_pos h2]
      exact ⟨le_of_lt (by omega), Or.inr ⟨trivial, by omega⟩⟩
    · simp only [if_neg h2]
      exact ⟨le_refl _, Or.inl trivial⟩
  · simp only [insert_data, if_neg h1]
    exact ⟨le_refl _, Or.inl trivial⟩

lemma insert_data_inserted (data : List (String × List String)) (b : ℤ)
    (files : CheckpointFiles) (t : ℕ) :
    (insert_data data b files t).2.2.most_recent_block_inserted =
        files.most_recent_block_inserted ∨
      (insert_data data b files t).2.2.most_recent_block_inserted = b := by
  by_cases h1 : (data.map (fun kv => kv.2.length)).sum ≥ t
  · simp only [insert_data, if_pos h1]
    exact Or.inr trivial
  · simp only [insert_data, if_neg h1]
    exact Or.inl trivial

/-- C8: the high-water-mark checkpoint is overwritten only when the
newly flushed block number strictly exceeds the stored value, is
monotonically non-decreasing across any sequence of flushes, and —
given that a restarted stream only delivers blocks at or above the
resumable checkpoint — reprocessing never moves the resumable
checkpoint backward. -/
theorem c8_checkpoint_monotonic :
    (∀ (data : List (String × List String)) (b : ℤ) (files : CheckpointFiles) (t : ℕ),
      files.highest_block_inserted ≤
          (insert_data data b files t).2.2.highest_block_inserted ∧
        ((insert_data data b files t).2.2.highest_block_inserted =
            files.highest_block_inserted ∨
          ((insert_data data b files t).2.2.highest_block_inserted = b ∧
            files.highest_block_inserted < b))) ∧
    (∀ (flushes : List (List (String × List String) × ℤ)) (t : ℕ)
        (files : CheckpointFiles),
      files.highest_block_inserted ≤ (flushRun flushes t files).highest_block_inserted) ∧
    (∀ (flushes : List (List (String × List String) × ℤ)) (t : ℕ)
        (files : CheckpointFiles) (c : ℤ),
      c ≤ files.most_recent_block_inserted → (∀ db ∈ flushes, c ≤ db.2) →
        c ≤ (flushRun flushes t files).most_recent_block_inserted) := by
  refine ⟨insert_data_highest, ?_, ?_⟩
  · intro flushes t
    induction flushes with
    | nil => intro files; exact le_refl _
    | cons db rest ih =>
        intro files
        have h1 := (insert_data_highest db.1 db.2 files t).1
        calc files.highest_block_inserted
            ≤ (insert_data db.1 db.2 files t).2.2.highest_block_inserted := h1
          _ ≤ _ := ih _
  · intro flushes t
    induction flushes with
    | nil => intro files c hc _; exact hc
    | cons db rest ih =>
        intro files c hc hall
        have hb : c ≤ db.2 := hall db (List.mem_cons_self db rest)
        have hnext : c ≤ (insert_data db.1 db.2 files t).2.2.most_recent_block_inserted := by
          rcases insert_data_inserted db.1 db.2 files t with h | h
          · rw [h]; exact hc
          · rw [h]; exact hb
        exact ih _ c hnext (fun x hx => hall x (List.mem_cons_of_mem db hx))

/-- Witness for C8 on a concrete flush sequence. -/
theorem c8_witness :
    (0 : ℤ) ≤ 100 ∧
    (0 : ℤ) ≤ (flushRun [([("accounts", ["a"])], 101), ([("accounts", ["b"])], 103)] 1
      ⟨100, 100, 100⟩).most_recent_block_inserted ∧
    (100 : ℤ) ≤ (flushRun [([("accounts", ["a"])], 101), ([("accounts", ["b"])], 103)] 1
      ⟨100, 100, 100⟩).highest_block_inserted := by
  refine ⟨by norm_num, ?_, ?_⟩
  · exact (c8_checkpoint_monotonic).2.2
      [([("accounts", ["a"])], 101), ([("accounts", ["b"])], 103)] 1 ⟨100, 100, 100⟩ 0
      (by norm_num) (by intro db hdb; fin_cases hdb <;> norm_num)
  · exact (c8_checkpoint_monotonic).2.1
      [([("accounts", ["a"])], 101), ([("accounts", ["b"])], 103)] 1 ⟨100, 100, 100⟩

/-- Events appended by one `priceStep`: fetches happen at or after the
date's deadline, inserts only when the source returned a row. -/
lemma priceStep_snd (source : ℤ → Option PriceRow) (st : ℤ × List PriceEvent) (d : ℤ) :
    ∃ tail, (priceStep source st d).2 = st.2 ++ tail ∧
      (∀ e te, PriceEvent.fetch e te ∈ tail → e = d ∧ priceDeadline d ≤ te) ∧
      (∀ e pe, PriceEvent.insert e pe ∈ tail → e = d ∧ (source d).isSome = true) := by
  by_cases hlt : st.1 < priceDeadline d
  · cases hsd : source d with
    | some row =>
        refine ⟨[PriceEvent.sleepUntil (priceDeadline d),
          PriceEvent.fetch d (priceDeadline d),
          PriceEvent.insert d ⟨d, pyRoundN 4 row.openv, pyRoundN 4 row.high,
            pyRoundN 4 row.low, pyRoundN 4 row.close, pyTrunc row.volume⟩], ?_, ?_, ?_⟩
        · simp [priceStep, hsd, hlt]
        · intro e te hm
          simp only [List.mem_cons, List.not_mem_nil, or_false] at hm
          rcases hm with hm | hm | hm <;> first
            | (cases hm; exact ⟨rfl, le_refl _⟩)
            | (cases hm)
        · intro e pe hm
          simp only [List.mem_cons, List.not_mem_nil, or_false] at hm
          rcases hm with hm | hm | hm <;> first
            | (cases hm; exact ⟨rfl, rfl⟩)
            | (cases hm)
    | none =>
        refine ⟨[PriceEvent.sleepUntil (priceDeadline d),
          PriceEvent.fetch d (priceDeadline d)], ?_, ?_, ?_⟩
        · simp [priceStep, hsd, hlt]
        · intro e te hm
          simp only [List.mem_cons, List.not_mem_nil, or_false] at hm
          rcases hm with hm | hm <;> first
            | (cases hm; exact ⟨rfl, le_refl _⟩)
            | (cases hm)
        · intro e pe hm
          simp only [List.mem_cons, List.not_mem_nil, or_false] at hm
          rcases hm with hm | hm <;> cases hm
  · cases hsd : source d with
    | some row =>
        refine ⟨[PriceEvent.fetch d st.1,
          PriceEvent.insert d ⟨d, pyRoundN 4 row.openv, pyRoundN 4 row.high,
            pyRoundN 4 row.low, pyRoundN 4 row.close, pyTrunc row.volume⟩], ?_, ?_, ?_⟩
        · simp [priceStep, hsd, hlt]
        · intro e te hm
          simp only [List.mem_cons, List.not_mem_nil, or_false] at hm
          rcases hm with hm | hm <;> first
            | (cases hm; exact ⟨rfl, by omega⟩)
            | (cases hm)
        · intro e pe hm
          simp only [List.mem_cons, List.not_mem_nil, or_false] at hm
          rcases hm with hm | hm <;> first
            | (cases hm; exact ⟨rfl, rfl⟩)
            | (cases hm)
    | none =>
        refine ⟨[PriceEvent.fetch d st.1], ?_, ?_, ?_⟩
        · simp [priceStep, hsd, hlt]
        · intro e te hm
          simp only [List.mem_cons, List.not_mem_nil, or_false] at hm
          cases hm
          exact ⟨rfl, by omega⟩
        · intro e pe hm
          simp only [List.mem_cons, List.not_mem_nil, or_false] at hm
          cases hm

lemma priceRun_inv (source : ℤ → Option PriceRow) (missing : List ℤ) :
    ∀ (st : ℤ × List PriceEvent),
      (∀ d t2, PriceEvent.fetch d t2 ∈ st.2 → priceDeadline d ≤ t2) →
      (∀ d p, PriceEvent.insert d p ∈ st.2 → (source d).isSome = true) →
      (∀ d t2, PriceEvent.fetch d t2 ∈ (missing.foldl (priceStep source) st).2 →
          priceDeadline d ≤ t2) ∧
      (∀ d p, PriceEvent.insert d p ∈ (missing.foldl (priceStep source) st).2 →
          (source d).isSome = true) := by
  induction missing with
  | nil => intro st h1 h2; exact ⟨h1, h2⟩
  | cons d ds ih =>
      intro st h1 h2
      rw [List.foldl_cons]
      obtain ⟨tail, heq, hf, hi⟩ := priceStep_snd source st d
      apply ih
      · intro e te hm
        rw [heq] at hm
        rcases List.mem_append.1 hm with hm | hm
        · exact h1 e te hm
        · obtain ⟨rfl, hle⟩ := hf e te hm
          exact hle
      · intro e pe hm
        rw [heq] at hm
        rcases List.mem_append.1 hm with hm | hm
        · exact h2 e pe hm
        · obtain ⟨rfl, hs⟩ := hi e pe hm
          exact hs

/-- C9: in a backfill cycle, every price-source fetch for a date happens
at or after that date's availability instant (00:30 UTC the following
day), and a date for which the source returns no row produces no insert
call; `get_missing_prices` is total, so no exception escapes the cycle
for such a date. -/
theorem c9_price_backfill (source : ℤ → Option PriceRow) (missing : List ℤ) (now0 : ℤ) :
    (∀ d t2, PriceEvent.fetch d t2 ∈ (get_missing_prices source missing now0).2 →
        priceDeadline d ≤ t2) ∧
    (∀ d p, PriceEvent.insert d p ∈ (get_missing_prices source missing now0).2 →
        (source d).isSome = true) := by
  unfold get_missing_prices
  exact priceRun_inv source missing (now0, []) (by simp) (by simp)

/-- Witness for C9 on a one-date cycle with an empty source. -/
theorem c9_witness :
    PriceEvent.fetch 0 1470 ∈ (get_missing_prices (fun _ => none) [0] 0).2 ∧
    priceDeadline 0 ≤ 1470 := by
  refine ⟨by decide, ?_⟩
  exact (c9_price_backfill (fun _ => none) [0] 0).1 0 1470 (by decide)

lemma pyObjGet_some_hasKey (fields : List (String × PyJson)) (k : String) (v : PyJson)
    (h : pyObjGet fields k = some v) : pyObjHasKey fields k = true := by
  unfold pyObjGet at h
  unfold pyObjHasKey
  cases hf : fields.find? (fun f => f.1 == k) with
  | none => rw [hf] at h; cases h
  | some f =>
      have hmem := List.mem_of_find?_eq_some hf
      have hp := List.find?_some hf
      exact List.any_eq_true.2 ⟨f, hmem, hp⟩

/-- C7 (amended): a follow-namespace payload `["reblog", {account,
author, permlink}]` appends exactly one Resteem record with
`resteemed_by` equal to the account field; a different first-element tag
or a missing required field (with an object second element) yields no
record without raising; but an array payload `["reblog"]` with no second
element raises an uncaught IndexError — not every malformed shape is
silently ignored. -/
theorem c7_resteem_parsing (followers : String → ℤ → ℤ) (ga : String → ℤ)
    (fields : List (String × PyJson)) (acc au pl : String) (ts date : ℤ)
    (checker : AccountChecker) (resteems : List ResteemRecord)
    (hacc : pyObjGet fields "account" = some (PyJson.str acc))
    (hau : pyObjGet fields "author" = some (PyJson.str au))
    (hpl : pyObjGet fields "permlink" = some (PyJson.str pl)) :
    (handle_resteem followers ga
        ⟨"custom_json", "follow", PyJson.arr [PyJson.str "reblog", PyJson.obj fields], ts⟩
        date checker resteems =
      Except.ok (checker.check ga acc,
        resteems ++ [⟨au, pl, acc, followers acc ts, date⟩])) ∧
    (∀ (j0 : PyJson) (rest : List PyJson), j0.eqStr "reblog" = false →
      parse_resteem followers ⟨"custom_json", "follow", PyJson.arr (j0 :: rest), ts⟩ =
        Except.ok none) ∧
    (∀ fields2 : List (String × PyJson),
      (pyObjHasKey fields2 "account" && pyObjHasKey fields2 "author" &&
        pyObjHasKey fields2 "permlink") = false →
      parse_resteem followers
          ⟨"custom_json", "follow",
            PyJson.arr [PyJson.str "reblog", PyJson.obj fields2], ts⟩ =
        Except.ok none) ∧
    (parse_resteem followers ⟨"custom_json", "follow", PyJson.arr [PyJson.str "reblog"], ts⟩ =
      Except.error "IndexError") := by
  refine ⟨?_, ?_, ?_, ?_⟩
  · have h1 := pyObjGet_some_hasKey fields "account" _ hacc
    have h2 := pyObjGet_some_hasKey fields "author" _ hau
    have h3 := pyObjGet_some_hasKey fields "permlink" _ hpl
    unfold handle_resteem parse_resteem
    simp [PyJson.eqStr, h1, h2, h3, hacc, hau, hpl, pyAsStr]
  · intro j0 rest hne
    unfold parse_resteem
    simp [hne]
  · intro fields2 hmiss
    unfold parse_resteem
    simp [PyJson.eqStr, hmiss]
  · unfold parse_resteem
    simp [PyJson.eqStr]

/-- Witness for C7 on a concrete well-formed reblog payload. -/
theorem c7_witness :
    pyObjGet [("account", PyJson.str "alice"), ("author", PyJson.str "bob"),
        ("permlink", PyJson.str "p1")] "account" = some (PyJson.str "alice") ∧
    handle_resteem (fun _ _ => 42) (fun _ => 0)
        ⟨"custom_json", "follow",
          PyJson.arr [PyJson.str "reblog",
            PyJson.obj [("account", PyJson.str "alice"), ("author", PyJson.str "bob"),
              ("permlink", PyJson.str "p1")]], 5⟩
        9 ⟨[], []⟩ [] =
      Except.ok (AccountChecker.check (fun _ => 0) ⟨[], []⟩ "alice",
        [⟨"bob", "p1", "alice", 42, 9⟩]) := by
  refine ⟨by rfl, ?_⟩
  have h := (c7_resteem_parsing (fun _ _ => 42) (fun _ => 0)
    [("account", PyJson.str "alice"), ("author", PyJson.str "bob"),
      ("permlink", PyJson.str "p1")] "alice" "bob" "p1" 5 9 ⟨[], []⟩ []
    (by rfl) (by rfl) (by rfl)).1
  simpa using h

/-- Counterexample for C7 as stated: the malformed payload
`["reblog"]` (one-element array) raises IndexError instead of being
silently ignored. -/
theorem c7_counterexample :
    parse_resteem (fun _ _ => 0)
        ⟨"custom_json", "follow", PyJson.arr [PyJson.str "reblog"], 0⟩ =
      Except.error "IndexError" := by
  rfl

lemma handle_curation_same (gc : String → String → ContentData) (ga : String → ℤ)
    (block : CurationBlock) (date : ℤ) (checker : AccountChecker) (crs : CurationRewards)
    (pv : List PostValueData) (cr : List CurationRewardsData) (w : ℤ)
    (h1 : crs.author = some block.comment_author)
    (h2 : crs.permlink = some block.comment_permlink)
    (hw : parseVests block.reward = some w) :
    handle_curation_reward gc ga block date checker crs pv cr =
      Except.ok ((checker.check ga block.comment_author).check ga block.curator,
        { crs with rewards := crs.rewards ++ [⟨block.curator, w⟩] }, pv, cr) := by
  unfold handle_curation_reward
  have hcnp : crs.check_new_post block.comment_author block.comment_permlink = false := by
    unfold CurationRewards.check_new_post
    rw [if_pos ⟨h1, h2⟩]
  simp only [hcnp]
  simp [CurationRewards.add_reward, hw]

lemma handle_curation_open_first (gc : String → String → ContentData) (ga : String → ℤ)
    (block : CurationBlock) (date : ℤ) (checker : AccountChecker) (crs : CurationRewards)
    (pv : List PostValueData) (cr : List CurationRewardsData) (w : ℤ)
    (h0 : crs.author = none)
    (hw : parseVests block.reward = some w) :
    handle_curation_reward gc ga block date checker crs pv cr =
      Except.ok ((checker.check ga block.comment_author).check ga block.curator,
        ⟨some block.comment_author, some block.comment_permlink, some date,
          [⟨block.curator, w⟩]⟩, pv, cr) := by
  unfold handle_curation_reward
  have hcnp : crs.check_new_post block.comment_author block.comment_permlink = true := by
    unfold CurationRewards.check_new_post
    rw [if_neg]
    intro hc
    rw [h0] at hc
    cases hc.1
  simp only [hcnp]
  simp [CurationRewards.get_data, h0, CurationRewards.add_reward, hw]

lemma handle_curation_close (gc : String → String → ContentData) (ga : String → ℤ)
    (block : CurationBlock) (date : ℤ) (checker : AccountChecker) (crs : CurationRewards)
    (pv : List PostValueData) (cr : List CurationRewardsData) (a0 : String) (w : ℤ) (v : ℚ)
    (h0 : crs.author = some a0)
    (hne : ¬(crs.author = some block.comment_author ∧
      crs.permlink = some block.comment_permlink))
    (hv : parsePayout (gc block.comment_author block.comment_permlink).curator_payout_value =
      some v)
    (hw : parseVests block.reward = some w) :
    handle_curation_reward gc ga block date checker crs pv cr =
      Except.ok ((checker.check ga block.comment_author).check ga block.curator,
        ⟨some block.comment_author, some block.comment_permlink, some date,
          [⟨block.curator, w⟩]⟩,
        pv ++ [⟨block.comment_author, block.comment_permlink, pyRound2 v * 2⟩],
        cr ++ [crs.get_data]) := by
  unfold handle_curation_reward
  have hcnp : crs.check_new_post block.comment_author block.comment_permlink = true := by
    unfold CurationRewards.check_new_post
    rw [if_neg hne]
  simp only [hcnp]
  simp [CurationRewards.get_data, h0, hv, CurationRewards.add_reward, hw]

/-- Counterexample for C1 as stated: closing alice/p1's group on the
arrival of bob/p2's reward appends the PostValue (bob, p2, 6) — from
bob's 3.00 payout — not (alice, p1, 20) from the closing post's 10.00
payout. -/
theorem c1_counterexample :
    (runCuration
        (fun a _ => if a == "alice" then ⟨"10.00 SBD", []⟩ else ⟨"3.00 SBD", []⟩)
        (fun _ => 0)
        [(⟨"alice", "p1", "cur1", "100 VESTS"⟩, 1), (⟨"bob", "p2", "cur2", "200 VESTS"⟩, 2)]
        (initCurationState ⟨[], []⟩)).map CurationState.post_values =
      Except.ok [⟨"bob", "p2", 6⟩] ∧
    PostValueData.mk "bob" "p2" 6 ≠ PostValueData.mk "alice" "p1" 20 := by
  refine ⟨?_, by simp⟩
  simp [runCuration, curationStep, handle_curation_reward, CurationRewards.check_new_post,
    CurationRewards.get_data, CurationRewards.add_reward, initCurationState,
    AccountChecker.check, AccountChecker.seen, parseVests, parsePayout, parseDecimal,
    pyRemoveAll, replaceList, splitDot, parseDigits, parseDigitsAux, pyTrunc, pyRound2,
    pyRoundN, roundHalfEven, bind, Except.bind, Except.map, List.foldlM, pure, Except.pure]
  norm_num

/-- C1 (amended): when the curation aggregator closes a group on a
differently-keyed incoming event, the appended PostValue record carries
the INCOMING event's author and permlink and the incoming post's
curator-payout value (unit suffix stripped, rounded to 2 decimals)
doubled, fetched from the Chain Source at that moment — not the closing
group's author/permlink/payout. -/
theorem c1_postvalue_uses_incoming_post (gc : String → String → ContentData)
    (ga : String → ℤ) (block : CurationBlock) (date : ℤ) (checker : AccountChecker)
    (crs : CurationRewards) (pv : List PostValueData) (cr : List CurationRewardsData)
    (a0 : String) (w : ℤ) (v : ℚ)
    (h0 : crs.author = some a0)
    (hne : ¬(crs.author = some block.comment_author ∧
      crs.permlink = some block.comment_permlink))
    (hv : parsePayout (gc block.comment_author block.comment_permlink).curator_payout_value =
      some v)
    (hw : parseVests block.reward = some w) :
    ∃ checker2 crs2,
      handle_curation_reward gc ga block date checker crs pv cr =
        Except.ok (checker2, crs2,
          pv ++ [⟨block.comment_author, block.comment_permlink, pyRound2 v * 2⟩],
          cr ++ [crs.get_data]) :=
  ⟨_, _, handle_curation_close gc ga block date checker crs pv cr a0 w v h0 hne hv hw⟩

/-- Witness for C1 at a concrete closing step. -/
theorem c1_witness :
    ∃ checker2 crs2,
      handle_curation_reward (fun _ _ => ⟨"3.00 SBD", []⟩) (fun _ => 0)
          ⟨"bob", "p2", "cur2", "200 VESTS"⟩ 2 ⟨[], []⟩
          ⟨some "alice", some "p1", some 1, [⟨"cur1", 100⟩]⟩ [] [] =
        Except.ok (checker2, crs2,
          [⟨"bob", "p2", pyRound2 3 * 2⟩],
          [⟨some "alice", some "p1", some 1, [⟨"cur1", 100⟩]⟩]) := by
  have h := c1_postvalue_uses_incoming_post (fun _ _ => ⟨"3.00 SBD", []⟩) (fun _ => 0)
    ⟨"bob", "p2", "cur2", "200 VESTS"⟩ 2 ⟨[], []⟩
    ⟨some "alice", some "p1", some 1, [⟨"cur1", 100⟩]⟩ [] [] "alice" 200 3
    rfl (by simp) (by simp [parsePayout, parseDecimal, pyRemoveAll, replaceList, splitDot,
      parseDigits, parseDigitsAux])
    (by simp [parseVests, parseDecimal, pyRemoveAll, replaceList, splitDot, parseDigits,
      parseDigitsAux, pyTrunc])
  simpa [CurationRewards.get_data] using h

/-- C4: feeding six curation-reward events with keys [A,A,A,B,B,C]
(A≠B, B≠C) to an initially empty aggregator appends exactly two groups
to the output batch — A's with its three rewards, then B's with its two
— while C's group remains open with its single reward and is never
appended. -/
theorem c4_grouping (gc : String → String → ContentData) (ga : String → ℤ)
    (aA pA aB pB aC pC u1 u2 u3 u4 u5 u6 r1 r2 r3 r4 r5 r6 : String)
    (v1 v2 v3 v4 v5 v6 : ℤ) (vB vC : ℚ) (d1 d2 d3 d4 d5 d6 : ℤ)
    (checker0 : AccountChecker)
    (hAB : ¬(aA = aB ∧ pA = pB)) (hBC : ¬(aB = aC ∧ pB = pC))
    (h1 : parseVests r1 = some v1) (h2 : parseVests r2 = some v2)
    (h3 : parseVests r3 = some v3) (h4 : parseVests r4 = some v4)
    (h5 : parseVests r5 = some v5) (h6 : parseVests r6 = some v6)
    (hpB : parsePayout (gc aB pB).curator_payout_value = some vB)
    (hpC : parsePayout (gc aC pC).curator_payout_value = some vC) :
    ∃ ck pvs,
      runCuration gc ga
        [(⟨aA, pA, u1, r1⟩, d1), (⟨aA, pA, u2, r2⟩, d2), (⟨aA, pA, u3, r3⟩, d3),
         (⟨aB, pB, u4, r4⟩, d4), (⟨aB, pB, u5, r5⟩, d5), (⟨aC, pC, u6, r6⟩, d6)]
        (initCurationState checker0) =
      Except.ok ⟨ck, ⟨some aC, some pC, some d6, [⟨u6, v6⟩]⟩, pvs,
        [⟨some aA, some pA, some d1, [⟨u1, v1⟩, ⟨u2, v2⟩, ⟨u3, v3⟩]⟩,
         ⟨some aB, some pB, some d4, [⟨u4, v4⟩, ⟨u5, v5⟩]⟩]⟩ := by
  have hneAB : ¬((⟨some aA, some pA, some d1,
      [⟨u1, v1⟩, ⟨u2, v2⟩, ⟨u3, v3⟩]⟩ : CurationRewards).author = some aB ∧
      (⟨some aA, some pA, some d1,
        [⟨u1, v1⟩, ⟨u2, v2⟩, ⟨u3, v3⟩]⟩ : CurationRewards).permlink = some pB) := by
    simpa using hAB
  have hneBC : ¬((⟨some aB, some pB, some d4,
      [⟨u4, v4⟩, ⟨u5, v5⟩]⟩ : CurationRewards).author = some aC ∧
      (⟨some aB, some pB, some d4,
        [⟨u4, v4⟩, ⟨u5, v5⟩]⟩ : CurationRewards).permlink = some pC) := by
    simpa using hBC
  have e1 := handle_curation_open_first gc ga ⟨aA, pA, u1, r1⟩ d1 checker0
    ⟨none, none, none, []⟩ [] [] v1 rfl h1
  have e2 := handle_curation_same gc ga ⟨aA, pA, u2, r2⟩ d2
    ((checker0.check ga aA).check ga u1)
    ⟨some aA, some pA, some d1, [⟨u1, v1⟩]⟩ [] [] v2 rfl rfl h2
  have e3 := handle_curation_same gc ga ⟨aA, pA, u3, r3⟩ d3
    ((((checker0.check ga aA).check ga u1).check ga aA).check ga u2)
    ⟨some aA, some pA, some d1, [⟨u1, v1⟩, ⟨u2, v2⟩]⟩ [] [] v3 rfl rfl h3
  have e4 := handle_curation_close gc ga ⟨aB, pB, u4, r4⟩ d4
    ((((((checker0.check ga aA).check ga u1).check ga aA).check ga
      u2).check ga aA).check ga u3)
    ⟨some aA, some pA, some d1, [⟨u1, v1⟩, ⟨u2, v2⟩, ⟨u3, v3⟩]⟩ [] [] aA v4 vB rfl
    hneAB hpB h4
  have e5 := handle_curation_same gc ga ⟨aB, pB, u5, r5⟩ d5
    ((((((((checker0.check ga aA).check ga u1).check ga aA).check ga
      u2).check ga aA).check ga u3).check ga aB).check ga u4)
    ⟨some aB, some pB, some d4, [⟨u4, v4⟩]⟩
    [⟨aB, pB, pyRound2 vB * 2⟩]
    [(⟨some aA, some pA, some d1,
      [⟨u1, v1⟩, ⟨u2, v2⟩, ⟨u3, v3⟩]⟩ : CurationRewards).get_data] v5 rfl rfl h5
  have e6 := handle_curation_close gc ga ⟨aC, pC, u6, r6⟩ d6
    ((((((((((checker0.check ga aA).check ga u1).check ga aA).check ga
      u2).check ga aA).check ga u3).check ga aB).check ga u4).check ga aB).check ga u5)
    ⟨some aB, some pB, some d4, [⟨u4, v4⟩, ⟨u5, v5⟩]⟩
    [⟨aB, pB, pyRound2 vB * 2⟩]
    [(⟨some aA, some pA, some d1,
      [⟨u1, v1⟩, ⟨u2, v2⟩, ⟨u3, v3⟩]⟩ : CurationRewards).get_data] aB v6 vC rfl
    hneBC hpC h6
  refine ⟨((((((((((((checker0.check ga aA).check ga u1).check ga aA).check ga
      u2).check ga aA).check ga u3).check ga aB).check ga u4).check ga aB).check ga
      u5).check ga aC).check ga u6),
    [⟨aB, pB, pyRound2 vB * 2⟩, ⟨aC, pC, pyRound2 vC * 2⟩], ?_⟩
  simp only [runCuration, List.foldlM_cons, List.foldlM_nil, curationStep,
    initCurationState]
  rw [e1]
  simp only [bind, Except.bind, List.singleton_append, List.cons_append, List.nil_append,
    List.append_nil]
  rw [e2]
  simp only [bind, Except.bind, List.singleton_append, List.cons_append, List.nil_append,
    List.append_nil]
  rw [e3]
  simp only [bind, Except.bind, List.singleton_append, List.cons_append, List.nil_append,
    List.append_nil]
  rw [e4]
  simp only [bind, Except.bind, List.singleton_append, List.cons_append, List.nil_append,
    List.append_nil]
  rw [e5]
  simp only [bind, Except.bind, List.singleton_append, List.cons_append, List.nil_append,
    List.append_nil]
  rw [e6]
  simp [CurationRewards.get_data, pure, Except.pure]

/-- Witness for C4 on concrete keys and rewards. -/
theorem c4_witness :
    ∃ ck pvs,
      runCuration (fun _ _ => ⟨"1.00 SBD", []⟩) (fun _ => 0)
        [(⟨"a", "p", "x1", "10 VESTS"⟩, 1), (⟨"a", "p", "x2", "20 VESTS"⟩, 2),
         (⟨"a", "p", "x3", "30 VESTS"⟩, 3), (⟨"b", "q", "x4", "40 VESTS"⟩, 4),
         (⟨"b", "q", "x5", "50 VESTS"⟩, 5), (⟨"c", "r", "x6", "60 VESTS"⟩, 6)]
        (initCurationState ⟨[], []⟩) =
      Except.ok ⟨ck, ⟨some "c", some "r", some 6, [⟨"x6", 60⟩]⟩, pvs,
        [⟨some "a", some "p", some 1, [⟨"x1", 10⟩, ⟨"x2", 20⟩, ⟨"x3", 30⟩]⟩,
         ⟨some "b", some "q", some 4, [⟨"x4", 40⟩, ⟨"x5", 50⟩]⟩]⟩ := by
  exact c4_grouping (fun _ _ => ⟨"1.00 SBD", []⟩) (fun _ => 0) "a" "p" "b" "q" "c" "r"
    "x1" "x2" "x3" "x4" "x5" "x6" "10 VESTS" "20 VESTS" "30 VESTS" "40 VESTS" "50 VESTS"
    "60 VESTS" 10 20 30 40 50 60 1 1 1 2 3 4 5 6 ⟨[], []⟩
    (by simp) (by simp)
    (by simp [parseVests, parseDecimal, pyRemoveAll, replaceList, splitDot, parseDigits,
      parseDigitsAux, pyTrunc])
    (by simp [parseVests, parseDecimal, pyRemoveAll, replaceList, splitDot, parseDigits,
      parseDigitsAux, pyTrunc])
    (by simp [parseVests, parseDecimal, pyRemoveAll, replaceList, splitDot, parseDigits,
      parseDigitsAux, pyTrunc])
    (by simp [parseVests, parseDecimal, pyRemoveAll, replaceList, splitDot, parseDigits,
      parseDigitsAux, pyTrunc])
    (by simp [parseVests, parseDecimal, pyRemoveAll, replaceList, splitDot, parseDigits,
      parseDigitsAux, pyTrunc])
    (by simp [parseVests, parseDecimal, pyRemoveAll, replaceList, splitDot, parseDigits,
      parseDigitsAux, pyTrunc])
    (by simp [parsePayout, parseDecimal, pyRemoveAll, replaceList, splitDot, parseDigits,
      parseDigitsAux])
    (by simp [parsePayout, parseDecimal, pyRemoveAll, replaceList, splitDot, parseDigits,
      parseDigitsAux])
